import Mathlib

/-!
Shallow embedding of `keras_cv/layers/regularization/stochastic_depth.py`.

The layer combines a shortcut tensor and a residual tensor.  Tensors are
modelled as flat lists of exact rationals (two tensors have the same shape
iff the lists have the same length); the host framework's random backend is
modelled as an explicit stream of uniform draws that the layer consumes.
-/

/-- A numeric tensor, flattened to its list of entries. -/
abbrev Tensor := List ℚ

/-- Elementwise tensor addition (`+` on equally shaped tensors). -/
def tadd (a b : Tensor) : Tensor := List.zipWith (fun x y => x + y) a b

/-- Scalar-times-tensor broadcast multiplication. -/
def smul (c : ℚ) (t : Tensor) : Tensor := t.map (fun x => c * x)

/-- The state of the host framework's random backend: a stream of uniform
draws in `[0,1)` together with a counter saying how many have been consumed. -/
structure RNG where
  seq : ℕ → ℚ
  counter : ℕ

/-- Consume the next uniform draw from the backend. -/
def RNG.next (rng : RNG) : ℚ × RNG :=
  (rng.seq rng.counter, ⟨rng.seq, rng.counter + 1⟩)

/-- The backend state after exactly one draw has been consumed. -/
def RNG.advance (rng : RNG) : RNG := ⟨rng.seq, rng.counter + 1⟩

/-- A well-formed backend produces uniform draws lying in `[0,1)`. -/
def RNG.Valid (rng : RNG) : Prop := ∀ n, 0 ≤ rng.seq n ∧ rng.seq n < 1

/-- Modelled from the spec: `tf.keras.backend.random_bernoulli` belongs to the
host framework, not to this repository.  The spec describes it as one scalar
Bernoulli draw equal to 1 with probability `p`; it is realised here from one
uniform draw `u ∈ [0,1)` as `if u < p then 1 else 0`. -/
def random_bernoulli (p : ℚ) (rng : RNG) : ℚ × RNG :=
  let (u, rng') := rng.next
  (if u < p then 1 else 0, rng')

/-- The `StochasticDepth` layer: its whole state is one scalar configuration
value, `survival_probability`. -/
structure StochasticDepth where
  survival_probability : ℚ

/-- `StochasticDepth.__init__`: stores `survival_probability` verbatim; the
argument defaults to `0.5` when omitted. -/
def StochasticDepth.construct (survival_probability : optParam ℚ (1/2)) :
    StochasticDepth :=
  ⟨survival_probability⟩

/-- Python truthiness of the `training` argument: `None` and `False` are
falsy, `True` is truthy. -/
def truthy : Option Bool → Bool
  | some true => true
  | _ => false

/-- `StochasticDepth.call`.  Mirrors the source: reject inputs whose length is
not 2 (reporting the received length), otherwise unpack
`shortcut, residual = x`, draw `b_l` unconditionally, and branch on
`training`: `shortcut + b_l * residual` when truthy, else
`shortcut + survival_probability * residual`.  The random-backend state is
threaded explicitly. -/
def StochasticDepth.call (l : StochasticDepth) (x : List Tensor)
    (training : Option Bool) (rng : RNG) : Except String Tensor × RNG :=
  match x with
  | [shortcut, residual] =>
      let (b_l, rng') := random_bernoulli l.survival_probability rng
      if truthy training then
        (Except.ok (tadd shortcut (smul b_l residual)), rng')
      else
        (Except.ok (tadd shortcut (smul l.survival_probability residual)), rng')
  | _ =>
      (Except.error ("Input must be a list of length 2. Got input with length="
          ++ toString x.length ++ "."), rng)

/-- `StochasticDepth.get_config`: the base layer's configuration (host
machinery, not in this repository) is abstracted as an arbitrary key-value
list; the layer appends its own `survival_probability` entry, which
therefore overrides any base entry of the same key when the dict is built. -/
def StochasticDepth.get_config (l : StochasticDepth)
    (base_config : List (String × ℚ)) : List (String × ℚ) :=
  base_config ++ [("survival_probability", l.survival_probability)]

/-- Building a Python dict from an item list: a later binding of a key
overwrites an earlier one, so lookup returns the last matching entry. -/
def dictOfItems (items : List (String × ℚ)) : String → Option ℚ :=
  fun k => items.foldl (fun acc kv => if kv.1 = k then some kv.2 else acc) none

/-- Modelled from the spec: the host framework reconstructs a serialised layer
by calling the constructor with the stored `survival_probability` entry
(falling back to the constructor default `0.5` when the entry is absent). -/
def constructFromConfig (config : List (String × ℚ)) : StochasticDepth :=
  StochasticDepth.construct ((dictOfItems config "survival_probability").getD (1/2))

/-- One observable operation on a constructed layer. -/
inductive Op where
  | applyOp (x : List Tensor) (training : Option Bool)
  | getConfigOp (base_config : List (String × ℚ))

/-- Running one operation on the layer-and-backend state: `call` threads the
random backend and never writes to the layer's field; `get_config` reads only. -/
def stepOp (s : StochasticDepth × RNG) (op : Op) : StochasticDepth × RNG :=
  match op with
  | Op.applyOp x training => (s.1, (s.1.call x training s.2).2)
  | Op.getConfigOp _ => s

/-- A concrete backend state whose every uniform draw is 0. -/
def rng0 : RNG := ⟨fun _ => 0, 0⟩

theorem smul_one (b : Tensor) : smul 1 b = b := by
  simp [smul]

theorem tadd_smul_zero (a b : Tensor) (h : a.length = b.length) :
    tadd a (smul 0 b) = a := by
  induction a generalizing b with
  | nil => simp [tadd]
  | cons x xs ih =>
      cases b with
      | nil => simp at h
      | cons y ys =>
          simp only [List.length_cons, Nat.succ.injEq] at h
          simp [tadd, smul] at ih ⊢
          exact ih ys h

/-- Claim C1: for any two tensors `a`, `b` of identical shape and configured
`survival_probability` `p`, a call with `training = False` returns exactly the
tensor `a + p*b` elementwise, with exact equality and no dependence on the
random draw (the result is the same for every backend state `rng`). -/
theorem call_inference_exact (l : StochasticDepth) (a b : Tensor)
    (_h : a.length = b.length) (rng : RNG) :
    (l.call [a, b] (some false) rng).1 =
      Except.ok (List.zipWith (fun ai bi => ai + l.survival_probability * bi) a b) := by
  simp [StochasticDepth.call, truthy, random_bernoulli, RNG.next, tadd, smul,
    List.zipWith_map_right]

theorem call_inference_exact_witness :
    ([(1 : ℚ)] : Tensor).length = ([(2 : ℚ)] : Tensor).length ∧
    (((StochasticDepth.construct (1/2)).call [[(1 : ℚ)], [(2 : ℚ)]]
        (some false) rng0).1 = Except.ok [(2 : ℚ)]) := by
  refine ⟨rfl, ?_⟩
  have h := call_inference_exact (StochasticDepth.construct (1/2))
    [(1 : ℚ)] [(2 : ℚ)] rfl rng0
  rw [h]
  norm_num [StochasticDepth.construct]

/-- Claim C2: for any two tensors `a`, `b` of identical shape, a single call
with `training` truthy returns either `a + b` (the Bernoulli draw is 1) or `a`
(the draw is 0), and never any intermediate value, whatever the backend state. -/
theorem call_training_two_outcomes (l : StochasticDepth) (a b : Tensor)
    (h : a.length = b.length) (rng : RNG) :
    ∃ t rng', l.call [a, b] (some true) rng = (Except.ok t, rng') ∧
      (t = tadd a b ∨ t = a) := by
  by_cases hu : rng.seq rng.counter < l.survival_probability
  · refine ⟨tadd a b, RNG.advance rng, ?_, Or.inl rfl⟩
    simp [StochasticDepth.call, truthy, random_bernoulli, RNG.next, RNG.advance,
      hu, smul_one]
  · refine ⟨a, RNG.advance rng, ?_, Or.inr rfl⟩
    simp [StochasticDepth.call, truthy, random_bernoulli, RNG.next, RNG.advance,
      hu, tadd_smul_zero a b h]

theorem call_training_two_outcomes_witness :
    ([(1 : ℚ)] : Tensor).length = ([(2 : ℚ)] : Tensor).length ∧
    ∃ t rng', (StochasticDepth.construct (1/2)).call [[(1 : ℚ)], [(2 : ℚ)]]
        (some true) rng0 = (Except.ok t, rng') ∧
      (t = tadd [(1 : ℚ)] [(2 : ℚ)] ∨ t = [(1 : ℚ)]) :=
  ⟨rfl, call_training_two_outcomes (StochasticDepth.construct (1/2))
    [(1 : ℚ)] [(2 : ℚ)] rfl rng0⟩

/-- Claim C3: `call` raises the invalid-argument error iff the input list does
not have exactly 2 elements; the error message contains the actual received
length, and a 2-element input raises no error. -/
theorem call_arity_check (l : StochasticDepth) (x : List Tensor)
    (training : Option Bool) (rng : RNG) :
    ((∃ e, (l.call x training rng).1 = Except.error e) ↔ x.length ≠ 2) ∧
    (x.length ≠ 2 →
      (l.call x training rng).1 =
        Except.error ("Input must be a list of length 2. Got input with length="
          ++ toString x.length ++ ".") ∧
      ∃ pre post,
        ("Input must be a list of length 2. Got input with length="
          ++ toString x.length ++ ".") = pre ++ toString x.length ++ post) := by
  match x with
  | [] =>
      refine ⟨⟨fun _ => by simp, fun _ => ⟨_, rfl⟩⟩, ?_⟩
      exact fun _ =>
        ⟨by simp [StochasticDepth.call],
          "Input must be a list of length 2. Got input with length=", ".", rfl⟩
  | [a] =>
      refine ⟨⟨fun _ => by simp, fun _ => ⟨_, rfl⟩⟩, ?_⟩
      exact fun _ =>
        ⟨by simp [StochasticDepth.call],
          "Input must be a list of length 2. Got input with length=", ".", rfl⟩
  | [a, b] =>
      refine ⟨⟨?_, fun hl => absurd rfl hl⟩, fun hl => absurd rfl hl⟩
      rintro ⟨e, he⟩
      simp only [StochasticDepth.call, random_bernoulli, RNG.next] at he
      by_cases ht : truthy training <;> simp [ht] at he
  | a :: b :: c :: t =>
      refine ⟨⟨fun _ => by simp, fun _ => ⟨_, rfl⟩⟩, ?_⟩
      exact fun _ =>
        ⟨by simp [StochasticDepth.call],
          "Input must be a list of length 2. Got input with length=", ".", rfl⟩

theorem call_arity_check_witness :
    (([] : List Tensor).length ≠ 2) ∧
    ((StochasticDepth.construct (1/2)).call [] none rng0).1 =
      Except.error ("Input must be a list of length 2. Got input with length="
        ++ toString ([] : List Tensor).length ++ ".") ∧
    ∃ pre post,
      ("Input must be a list of length 2. Got input with length="
        ++ toString ([] : List Tensor).length ++ ".") =
        pre ++ toString ([] : List Tensor).length ++ post :=
  ⟨by decide,
    (call_arity_check (StochasticDepth.construct (1/2)) [] none rng0).2 (by decide)⟩

/-- Claim C4: a call with `training` absent (`None`) or any other falsy mode
value behaves identically to a call with `training = False`: both select the
deterministic inference branch. -/
theorem call_falsy_is_inference (l : StochasticDepth) (x : List Tensor)
    (training : Option Bool) (htr : truthy training = false) (rng : RNG) :
    l.call x training rng = l.call x (some false) rng := by
  cases training with
  | none => rfl
  | some b =>
      cases b with
      | false => rfl
      | true => simp [truthy] at htr

theorem call_falsy_is_inference_witness :
    truthy none = false ∧
    (StochasticDepth.construct (1/2)).call [[(1 : ℚ)], [(2 : ℚ)]] none rng0 =
      (StochasticDepth.construct (1/2)).call [[(1 : ℚ)], [(2 : ℚ)]]
        (some false) rng0 :=
  ⟨rfl, call_falsy_is_inference (StochasticDepth.construct (1/2))
    [[(1 : ℚ)], [(2 : ℚ)]] none rfl rng0⟩

/-- Claim C5: with `survival_probability = 1` every training-mode call returns
`a + b` whatever the (well-formed) backend state; with `survival_probability = 0`
every training-mode call returns `a`: the Bernoulli draw is deterministic at
the endpoints. -/
theorem call_training_endpoints (a b : Tensor) (h : a.length = b.length)
    (training : Option Bool) (htr : truthy training = true)
    (rng : RNG) (hrng : rng.Valid) :
    ((StochasticDepth.construct 1).call [a, b] training rng).1 =
      Except.ok (tadd a b) ∧
    ((StochasticDepth.construct 0).call [a, b] training rng).1 =
      Except.ok a := by
  obtain ⟨h0, h1⟩ := hrng rng.counter
  constructor
  · simp [StochasticDepth.call, htr, random_bernoulli, RNG.next,
      StochasticDepth.construct, h1, smul_one]
  · simp [StochasticDepth.call, htr, random_bernoulli, RNG.next,
      StochasticDepth.construct, not_lt.mpr h0, tadd_smul_zero a b h]

theorem call_training_endpoints_witness :
    ([(1 : ℚ)] : Tensor).length = ([(2 : ℚ)] : Tensor).length ∧
    truthy (some true) = true ∧ rng0.Valid ∧
    ((StochasticDepth.construct 1).call [[(1 : ℚ)], [(2 : ℚ)]]
        (some true) rng0).1 = Except.ok (tadd [(1 : ℚ)] [(2 : ℚ)]) ∧
    ((StochasticDepth.construct 0).call [[(1 : ℚ)], [(2 : ℚ)]]
        (some true) rng0).1 = Except.ok [(1 : ℚ)] :=
  ⟨rfl, rfl, fun n => ⟨le_refl 0, by norm_num [rng0]⟩,
    call_training_endpoints [(1 : ℚ)] [(2 : ℚ)] rfl (some true) rfl rng0
      (fun n => ⟨le_refl 0, by norm_num [rng0]⟩)⟩

/-- Claim C6, counterexample: the claim says an inference-mode call performs no
random draw and leaves the backend state unchanged, but the source executes
`b_l = tf.keras.backend.random_bernoulli(...)` before branching on `training`,
so even a `training = None` call consumes one draw: at a concrete input the
backend counter has advanced. -/
theorem call_inference_no_draw_counterexample :
    (((StochasticDepth.construct (1/2)).call [[(1 : ℚ)], [(2 : ℚ)]]
        none rng0).2).counter ≠ rng0.counter := by
  simp [StochasticDepth.call, truthy, random_bernoulli, RNG.next, rng0]

/-- Claim C6, amended: every call whose input has exactly 2 elements performs
exactly one scalar Bernoulli draw — in training and in inference mode alike —
and that draw is the only effect on the backend state; only the error path
performs no draw, and the inference result does not depend on the drawn value. -/
theorem call_one_draw (l : StochasticDepth) (x : List Tensor)
    (training : Option Bool) (rng : RNG) (h : x.length = 2) :
    (l.call x training rng).2 = rng.advance := by
  match x with
  | [a, b] =>
      simp only [StochasticDepth.call, random_bernoulli, RNG.next, RNG.advance]
      by_cases ht : truthy training <;> simp [ht]

theorem call_one_draw_witness :
    ([[(1 : ℚ)], [(2 : ℚ)]] : List Tensor).length = 2 ∧
    ((StochasticDepth.construct (1/2)).call [[(1 : ℚ)], [(2 : ℚ)]]
        none rng0).2 = rng0.advance :=
  ⟨rfl, call_one_draw (StochasticDepth.construct (1/2)) [[(1 : ℚ)], [(2 : ℚ)]]
    none rng0 rfl⟩

/-- Claim C7: `get_config` yields a mapping binding "survival_probability" to
the configured value, and reconstructing a layer from that mapping gives a
layer with the same `survival_probability`, whatever the base configuration
contributed by the host framework. -/
theorem get_config_roundtrip (l : StochasticDepth)
    (base_config : List (String × ℚ)) :
    dictOfItems (l.get_config base_config) "survival_probability" =
      some l.survival_probability ∧
    (constructFromConfig (l.get_config base_config)).survival_probability =
      l.survival_probability := by
  have hlook : dictOfItems (l.get_config base_config) "survival_probability" =
      some l.survival_probability := by
    simp [dictOfItems, StochasticDepth.get_config]
  exact ⟨hlook, by simp [constructFromConfig, StochasticDepth.construct, hlook]⟩

/-- Claim C8: `survival_probability` is set once at construction and no
sequence of `call` and `get_config` operations (in any mode, including calls
that take the error path) ever changes it. -/
theorem survival_probability_immutable (p : ℚ) (ops : List Op) (rng : RNG) :
    ((ops.foldl stepOp (StochasticDepth.construct p, rng)).1).survival_probability
      = p := by
  suffices hgen : ∀ s : StochasticDepth × RNG, (ops.foldl stepOp s).1 = s.1 by
    rw [hgen]
    rfl
  induction ops with
  | nil => intro s; rfl
  | cons op rest ih =>
      intro s
      rw [List.foldl_cons, ih]
      cases op <;> rfl

/-- Claim C9: construction accepts every value of `survival_probability`
without raising or clamping and stores it verbatim — including values outside
`[0, 1]` — and the omitted argument defaults to `0.5`. -/
theorem construct_stores_verbatim (p : ℚ) :
    (StochasticDepth.construct p).survival_probability = p ∧
    (StochasticDepth.construct).survival_probability = 1/2 :=
  ⟨rfl, rfl⟩

/-- Claim C10: when `call` takes the invalid-arity error path (input length not
2), no Bernoulli sample is consumed and the random backend's state is returned
unchanged. -/
theorem call_error_no_draw (l : StochasticDepth) (x : List Tensor)
    (training : Option Bool) (rng : RNG) (h : x.length ≠ 2) :
    (l.call x training rng).2 = rng ∧
    ∃ e, (l.call x training rng).1 = Except.error e := by
  match x with
  | [] => exact ⟨rfl, _, rfl⟩
  | [a] => exact ⟨rfl, _, rfl⟩
  | [a, b] => exact absurd rfl h
  | a :: b :: c :: t => exact ⟨rfl, _, rfl⟩

theorem call_error_no_draw_witness :
    (([[(1 : ℚ)]] : List Tensor).length ≠ 2) ∧
    ((StochasticDepth.construct (1/2)).call [[(1 : ℚ)]] (some true) rng0).2 = rng0 ∧
    ∃ e, ((StochasticDepth.construct (1/2)).call [[(1 : ℚ)]]
      (some true) rng0).1 = Except.error e :=
  ⟨by decide, call_error_no_draw (StochasticDepth.construct (1/2)) [[(1 : ℚ)]]
    (some true) rng0 (by decide)⟩
